import Mathlib

/- Verification development for the AI-Tour-Planning-Bot repository.

   The Python sources are shallowly embedded: pure helpers become Lean
   functions on `String`/`List Char`; network and model calls (Groq LLM,
   OpenWeatherMap, RapidAPI, WhatsApp dispatch, Nominatim, MongoDB) are
   modelled as total oracle parameters, i.e. the success path of each
   `try`-block; Python floats that only feed threshold comparisons are
   carried as exact fractions of naturals.  Dataclass dunder hooks
   (`__post_init__`, `__init__`) appear in the source with stripped
   underscores (`_post_init_`); they are embedded with their dataclass
   meaning. -/

set_option maxRecDepth 4000

/- ------------------------------------------------------------------ -/
/- Generic string helpers shared by the embedded modules.             -/
/- ------------------------------------------------------------------ -/

/-- Bool test: `needle` is a prefix of `hay` (Python `str.startswith`). -/
def startsWithL : List Char → List Char → Bool
  | [], _ => true
  | _ :: _, [] => false
  | a :: as, b :: bs => a = b && startsWithL as bs

/-- Bool test: `needle` occurs contiguously in `hay` (Python `in` on strings). -/
def substrL (needle : List Char) : List Char → Bool
  | [] => needle.isEmpty
  | c :: rest => startsWithL needle (c :: rest) || substrL needle rest

/-- Python `needle in hay` for strings. -/
def strContains (hay needle : String) : Bool := substrL needle.data hay.data

/-- Python `str.lower()` (the repository only feeds it ASCII). -/
def lowerStr (s : String) : String := ⟨s.data.map Char.toLower⟩

/-- Python `str.strip()` of whitespace, on a character list. -/
def trimL (l : List Char) : List Char :=
  ((l.dropWhile Char.isWhitespace).reverse.dropWhile Char.isWhitespace).reverse

/-- Python `str.strip()`. -/
def pyStrip (s : String) : String := ⟨trimL s.data⟩

/-- Helper for `pyTitle`: the Bool records whether the previous character was
alphabetic. -/
def pyTitleAux : Bool → List Char → List Char
  | _, [] => []
  | prevAlpha, c :: rest =>
    if c.isAlpha then
      (if prevAlpha then c.toLower else c.toUpper) :: pyTitleAux true rest
    else c :: pyTitleAux false rest

/-- Python `str.title()`: the first letter of every word upper-cased, the rest
lower-cased. -/
def pyTitle (s : String) : String := ⟨pyTitleAux false s.data⟩

/-- Python `<` on strings: lexicographic comparison of code points. -/
def strLtL : List Char → List Char → Bool
  | [], [] => false
  | [], _ :: _ => true
  | _ :: _, [] => false
  | a :: as, b :: bs => a.val < b.val || (a = b && strLtL as bs)

/-- Python `sep.join(items)`. -/
def joinStr (sep : String) : List String → String
  | [] => ""
  | [x] => x
  | x :: y :: rest => x ++ sep ++ joinStr sep (y :: rest)

/-- Digit run to a natural number (Python `int` on a digit string). -/
def natOfDigits (l : List Char) : Nat :=
  l.foldl (fun n c => 10 * n + (c.toNat - 48)) 0

/- ------------------------------------------------------------------ -/
/- Exact rational scores.  difflib's `ratio()` is `2*M/T` computed in  -/
/- floating point and compared against 0.6 / 0.8; all values involved  -/
/- have tiny numerators and denominators, so the float comparisons     -/
/- coincide with the exact rational ones embedded here.                -/
/- ------------------------------------------------------------------ -/

/-- A non-negative fraction `num/den` (`den` is never 0 where it is built). -/
structure Frac where
  num : Nat
  den : Nat
deriving DecidableEq

/-- Exact `p ≤ q` on fractions by cross multiplication. -/
def Frac.fle (p q : Frac) : Bool := p.num * q.den ≤ q.num * p.den

/-- Exact `p < q` on fractions by cross multiplication. -/
def Frac.flt (p q : Frac) : Bool := p.num * q.den < q.num * p.den

/- ------------------------------------------------------------------ -/
/- difflib.SequenceMatcher, as used by smart_spell_check_location.     -/
/- The inputs are far below the 200-character autojunk bound and no    -/
/- junk predicate is passed, so matching follows the documented        -/
/- longest-matching-block semantics embedded here.                     -/
/- ------------------------------------------------------------------ -/

/-- Length of the longest common prefix of two character lists. -/
def commonLen : List Char → List Char → Nat
  | a :: as, b :: bs => if a = b then commonLen as bs + 1 else 0
  | _, _ => 0

/-- Length of the match of `a` and `b` starting at `i`/`j`, confined to the
ranges `[i, ahi)` and `[j, bhi)`. -/
def matchLen (a b : List Char) (i j ahi bhi : Nat) : Nat :=
  commonLen ((a.drop i).take (ahi - i)) ((b.drop j).take (bhi - j))

/-- difflib `find_longest_match` on `a[alo:ahi]` / `b[blo:bhi]`: the longest
matching block, earliest in `a` and then earliest in `b` among maximal ones,
returned as `(i, j, size)`; `(alo, blo, 0)` when there is no match. -/
def bestMatch (a b : List Char) (alo ahi blo bhi : Nat) : Nat × Nat × Nat :=
  (List.range' alo (ahi - alo)).foldl
    (fun best i =>
      (List.range' blo (bhi - blo)).foldl
        (fun best j =>
          let k := matchLen a b i j ahi bhi
          if best.2.2 < k then (i, j, k) else best)
        best)
    (alo, blo, 0)

/-- Total size of difflib's matching blocks (the recursive decomposition of
`get_matching_blocks`), with fuel for the recursion; each recursive call
shrinks the ranges strictly, so `|a| + |b| + 1` fuel always suffices. -/
def totalMatchedAux (a b : List Char) : Nat → Nat → Nat → Nat → Nat → Nat
  | 0, _, _, _, _ => 0
  | fuel + 1, alo, ahi, blo, bhi =>
    let m := bestMatch a b alo ahi blo bhi
    if m.2.2 = 0 then 0
    else m.2.2 + totalMatchedAux a b fuel alo m.1 blo m.2.1
               + totalMatchedAux a b fuel (m.1 + m.2.2) ahi (m.2.1 + m.2.2) bhi

/-- Total matched size `M` for the whole of `a` and `b`. -/
def totalMatched (a b : List Char) : Nat :=
  totalMatchedAux a b (a.length + b.length + 1) 0 a.length 0 b.length

/-- difflib `ratio()` as the exact fraction `2*M / (|a| + |b|)`; `1` when both
sequences are empty, as in `_calculate_ratio`. -/
def simFrac (a b : List Char) : Frac :=
  let T := a.length + b.length
  if T = 0 then ⟨1, 1⟩ else ⟨2 * totalMatched a b, T⟩

/- ------------------------------------------------------------------ -/
/- trip_agent.py: destination gazetteer and smart spell checking.      -/
/- ------------------------------------------------------------------ -/

/-- The fixed destination gazetteer of trip_agent.py. -/
def DESTINATIONS : List String := [
  "mumbai", "delhi", "bangalore", "hyderabad", "chennai", "kolkata", "pune", "ahmedabad",
  "jaipur", "lucknow", "kanpur", "nagpur", "indore", "bhopal", "visakhapatnam", "patna",
  "goa", "kerala", "rajasthan", "himachal pradesh", "uttarakhand", "kashmir", "ladakh",
  "agra", "varanasi", "haridwar", "rishikesh", "dharamshala", "manali", "shimla",
  "udaipur", "jodhpur", "pushkar", "mount abu", "ranthambore", "jim corbett",
  "kochi", "thiruvananthapuram", "alleppey", "munnar", "thekkady",
  "mysore", "coorg", "ooty", "kodaikanal", "pondicherry", "hampi", "badami",
  "paris", "london", "dubai", "singapore", "thailand", "malaysia", "japan", "switzerland",
  "new york", "toronto", "sydney", "bali", "maldives", "nepal", "bhutan", "sri lanka"]

/-- The `cutoff=0.6` passed to `difflib.get_close_matches`. -/
def cutoffFrac : Frac := ⟨6, 10⟩

/-- The `confidence_threshold=0.8` default of `smart_spell_check_location`. -/
def confidence_default : Frac := ⟨8, 10⟩

/-- difflib `get_close_matches(word, DESTINATIONS, n=1, cutoff=0.6)`: keep the
candidates whose ratio reaches the cutoff, then pick the largest
`(ratio, candidate)` pair — `heapq.nlargest` on pairs breaks ratio ties by the
larger candidate string. -/
def get_close_matches (word : List Char) : Option String :=
  let scored : List (Frac × String) := DESTINATIONS.filterMap (fun x =>
    let r := simFrac x.data word
    if cutoffFrac.fle r then some (r, x) else none)
  (scored.foldl (fun best p =>
    match best with
    | none => some p
    | some q =>
      if Frac.flt q.1 p.1 || (p.1 = q.1 && strLtL q.2.data p.2.data) then some p else some q)
    none).map (fun p => p.2)

/-- trip_agent.smart_spell_check_location: returns
`(corrected_location, was_corrected, needs_confirmation)`. -/
def smart_spell_check_location (location : String) (confidence_threshold : Frac) :
    String × Bool × Bool :=
  let location_lower := pyStrip (lowerStr location)
  match get_close_matches location_lower.data with
  | some m =>
    let similarity := simFrac location_lower.data m.data
    if confidence_threshold.fle similarity then (pyTitle m, true, false)
    else if cutoffFrac.fle similarity then (pyTitle m, true, true)
    else (location, false, false)
  | none => (location, false, false)

/- ------------------------------------------------------------------ -/
/- trip_agent.py: waterfall safety data.                               -/
/- ------------------------------------------------------------------ -/

/-- One entry of trip_agent.SAFE_WATERFALLS. -/
structure Waterfall where
  name : String
  safety_level : String
  features : List String
  best_time : String
  current_status : String
  bathing : String
deriving DecidableEq

/-- trip_agent.SAFE_WATERFALLS, in dict insertion order. -/
def SAFE_WATERFALLS : List (String × List Waterfall) := [
  ("kerala", [⟨"Athirappilly Falls", "SAFE", ["Well-maintained viewing areas", "Tourist management"],
    "8:00 AM - 10:00 AM", "Safe for viewing", "Shallow areas only"⟩]),
  ("tamil nadu", [⟨"Courtallam Falls", "SAFE", ["Shallow bathing pools", "Lifeguard presence"],
    "7:00 AM - 9:00 AM", "Excellent for families", "Multiple safe areas"⟩]),
  ("karnataka", [⟨"Jog Falls", "SAFE", ["Viewing platforms", "Tourist infrastructure"],
    "8:00 AM - 10:00 AM", "Safe for viewing", "Viewing only"⟩]),
  ("goa", [⟨"Dudhsagar Falls", "MODERATE", ["Natural pools", "Trekking required"],
    "8:00 AM - 10:00 AM", "Safe with precautions", "Exercise caution"⟩])]

/-- The fallback entry returned by `get_safest_waterfall` when no state of the
table occurs in the location. -/
def default_waterfall : Waterfall :=
  ⟨"Local Safe Waterfall", "SAFE", ["Tourist-friendly"], "8:00 AM - 10:00 AM",
   "Safe for viewing", "Check conditions"⟩

/-- trip_agent.get_safest_waterfall: the first state whose name occurs in the
lower-cased location wins; otherwise the fixed fallback entry. -/
def get_safest_waterfall (location : String) : Waterfall :=
  let location_lower := lowerStr location
  match SAFE_WATERFALLS.find? (fun p => strContains location_lower p.1) with
  | some p => p.2.headD default_waterfall
  | none => default_waterfall

/-- trip_agent.format_waterfall_safety. -/
def format_waterfall_safety (w : Waterfall) : String :=
  "**" ++ w.name ++ "** 🌊\n- Safety Status: " ++ w.safety_level ++ " - " ++ w.current_status
    ++ "\n- Best Time: " ++ w.best_time ++ "\n- Bathing: " ++ w.bathing ++ "\n- Duration: 2-3 hours"

/- ------------------------------------------------------------------ -/
/- trip_agent.py / langgraph: messages, oracles and the graph.         -/
/- ------------------------------------------------------------------ -/

/-- A tool invocation requested by the model. -/
structure ToolCall where
  name : String
  args : String

/-- A langchain message, by its `type` tag: only AI messages carry a
`tool_calls` attribute. -/
inductive Msg
  | human (content : String)
  | ai (content : String) (tool_calls : List ToolCall)
  | system (content : String)
  | tool (name : String) (content : String)

/-- Oracles for the external effects of the agent.  `llm_with_tools` models
`llm.bind_tools(tools).invoke` and may request tool calls; `llm_plain` models
`llm.invoke` with no tools bound, whose reply can carry no tool call — it
returns content only.  The remaining fields model the network-backed tool
helpers on their success path. -/
structure Env where
  llm_with_tools : List Msg → String × List ToolCall
  llm_plain : List Msg → String
  exec_tool : ToolCall → String
  get_places : String → String → String
  get_images : String → String
  get_news : String → String
  reverse_geocode : String → String → Option String

/-- prompts.get_trip_agent_prompt, the fixed system prompt. -/
def get_trip_agent_prompt : String :=
  "\nYou are an expert Indian Travel AI Assistant with real-time waterfall safety knowledge.\n\nCRITICAL RULES:\n\n1. **TRIP PLANNING - ONE BY ONE APPROACH:**\n   User: \"plan trip\" or \"budget for X days trip\"\n   \n   STEP 1: Start with SAFEST WATERFALL first\n   - Always begin trip planning with the safest waterfall for bathing\n   - Call NewsTool(location) to check current water flow conditions\n   - Verify waterfall safety before suggesting\n   - Present ONE waterfall with safety details and images\n   - Ask for confirmation before proceeding\n   \n   Format: \"Let's start your trip with the SAFEST waterfall:\n   \n   **[Waterfall Name]** 🌊\n   - Safety Status: [Safe/Moderate/Dangerous] based on current conditions\n   - Water Flow: [Current status from news/reports]\n   - Best Time: [Morning timing for safety]\n   - Duration: [Time needed]\n   \n   🔗 [🔗 See Images](waterfall_image_url)\n   \n   Is this waterfall good for your first day? (Yes/No/Alternative)\"\n\n2. **WATERFALL SAFETY VERIFICATION:**\n   - Call NewsTool(waterfall_location) to check recent reports\n   - Prioritize waterfalls with:\n     * Shallow pools with gentle flow\n     * Lifeguard presence or tourist management\n     * Recent positive safety reports\n     * Easy entry/exit points\n   - AVOID waterfalls with:\n     * Heavy monsoon flow reports\n     * Recent accident news\n     * Deep/fast-flowing water warnings\n\n3. **USER RESPONSE HANDLING:**\n   - If user says \"Yes\" → Proceed to next activity (non-waterfall)\n   - If user says \"No\" → Suggest alternative waterfall with safety details\n   - If user says \"Alternative\" → Provide different safe waterfall option\n   - Always wait for confirmation before suggesting next place\n\n4. **PLACES TO VISIT QUERIES (Non-trip planning):**\n   - Call PlacesTool(location, \"tourism\")\n   - For EACH place, call ImagesTool(specific_place_name)\n   - Present all places with individual images\n   - Do NOT do one-by-one for simple places queries\n\n5. **SAFETY-FIRST WATERFALL EXAMPLES:**\n   \n   **SAFE WATERFALLS (Prioritize these):**\n   - Courtallam Falls (Tamil Nadu) - Shallow pools, managed area\n   - Hogenakkal Falls (Tamil Nadu) - Tourist-friendly with guides\n   - Athirappilly Falls (Kerala) - Viewing areas with safety measures\n   - Jog Falls (Karnataka) - Well-maintained tourist spot\n   \n   **VERIFY BEFORE SUGGESTING:**\n   - Current water flow levels\n   - Recent safety reports\n   - Tourist management presence\n   - Weather conditions affecting flow\n\n6. **TOOLS FOR SAFETY VERIFICATION:**\n   - NewsTool(waterfall_location) - Check recent safety reports\n   - WeatherTool(location) - Check weather affecting water flow\n   - PlacesTool(location, \"tourism\") - Get waterfall options\n   - ImagesTool(specific_waterfall_name) - Show waterfall images\n\n7. **RESPONSE FLOW:**\n   Trip Planning Query → Safe Waterfall First → User Confirmation → Next Activity → Confirmation → Continue...\n\nEXAMPLE TRIP PLANNING:\nUser: \"plan 2 day trip to kerala\"\n\nBot: \"Perfect! Let's start your Kerala trip with the SAFEST waterfall for bathing:\n\n**Athirappilly Falls** 🌊\n- Safety Status: SAFE - Well-maintained viewing areas and controlled access\n- Water Flow: Moderate and safe for viewing (verified from recent reports)\n- Best Time: 8:00 AM - 10:00 AM for best safety and fewer crowds\n- Duration: 2-3 hours including travel and photography\n\n🔗 [🔗 See Images](athirappilly_falls_image_url)\n\nThis waterfall has safety barriers, tourist management, and shallow viewing areas perfect for families.\n\nIs Athirappilly Falls good for your first day? (Yes/No/Alternative)\"\n\nMANDATORY: Always start trip planning with safest waterfall, verify current conditions, get confirmation before proceeding.\n\nEND OF PROMPT\n"

/-- The backward scan of `chatbot` that gathers tool results: walk the
reversed message list, collect `"name: content"` for each tool message, stop
at the first AI message (every AI message has the `tool_calls` attribute). -/
def collect_tool_results : List Msg → List String
  | [] => []
  | Msg.tool n c :: rest => (n ++ ": " ++ c) :: collect_tool_results rest
  | Msg.ai _ _ :: _ => []
  | Msg.human _ :: rest => collect_tool_results rest
  | Msg.system _ :: rest => collect_tool_results rest

/-- The backward scan of `chatbot` that finds the original user query: the
content of the latest human message, "" if none. -/
def find_user_query : List Msg → String
  | [] => ""
  | Msg.human c :: _ => c
  | _ :: rest => find_user_query rest

/-- Query-type detection on the lower-cased stripped user query. -/
def is_places_query (uq : String) : Bool := strContains uq "places to visit"

/-- Weather query: mentions weather and not planning. -/
def is_weather_query (uq : String) : Bool :=
  strContains uq "weather" && !strContains uq "plan"

/-- Images query detection. -/
def is_images_query (uq : String) : Bool :=
  strContains uq "show images" || strContains uq "images of"

/-- Trip-planning query detection. -/
def is_trip_planning (uq : String) : Bool :=
  ["plan", "budget for", "itinerary"].any (fun w => strContains uq w)

/-- The stop-word list of the location extraction in `chatbot`. -/
def location_stopwords : List String :=
  ["plan", "trip", "days", "visit", "travel", "tour", "with", "family", "friends", "budget", "for"]

/-- A character stripped by `word.strip('.,!?')`. -/
def punctChar (c : Char) : Bool := c = '.' || c = ',' || c = '!' || c = '?'

/-- Python `word.strip('.,!?')`. -/
def stripPunct (l : List Char) : List Char :=
  ((l.dropWhile punctChar).reverse.dropWhile punctChar).reverse

/-- Python `str.split()` with no argument: maximal runs of non-whitespace,
separators collapsed, no empty words; fuelled recursion (every step consumes
at least one character). -/
def split_ws_aux : Nat → List Char → List (List Char)
  | 0, _ => []
  | _ + 1, [] => []
  | fuel + 1, c :: rest =>
    if c.isWhitespace then split_ws_aux fuel rest
    else (c :: rest.takeWhile (fun d => !d.isWhitespace))
      :: split_ws_aux fuel (rest.dropWhile (fun d => !d.isWhitespace))

/-- Python `s.split()`. -/
def py_split_ws (s : String) : List String :=
  (split_ws_aux (s.data.length + 1) s.data).map (fun l => ⟨l⟩)

/-- Location extraction of `chatbot`: the first whitespace-separated word of
the raw user query longer than 3 characters whose lower-casing is not a
stop word, stripped of `.,!?`. -/
def extract_location_match (user_query : String) : Option String :=
  let words := py_split_ws user_query
  (words.find? (fun w =>
    3 < w.length && !(location_stopwords.contains (lowerStr w)))).map
    (fun w => ⟨stripPunct w.data⟩)

/-- The regex `\*\*([^*]+)\*\*` of `re.findall` over a tool result:
non-overlapping bold spans, scanned left to right; fuelled recursion (each
step drops at least one character, so `|input| + 1` fuel suffices). -/
def find_bold_aux : Nat → List Char → List (List Char)
  | 0, _ => []
  | _ + 1, [] => []
  | fuel + 1, '*' :: '*' :: rest =>
    let run := rest.takeWhile (fun c => c ≠ '*')
    let rem := rest.dropWhile (fun c => c ≠ '*')
    if !run.isEmpty && startsWithL ['*', '*'] rem then run :: find_bold_aux fuel (rem.drop 2)
    else find_bold_aux fuel ('*' :: rest)
  | fuel + 1, _ :: rest => find_bold_aux fuel rest

/-- `re.findall(r'\*\*([^*]+)\*\*', s)`. -/
def find_bold (s : String) : List String :=
  (find_bold_aux (s.data.length + 1) s.data).map (fun l => ⟨l⟩)

/-- A character of the class `[\-0-9\.]`. -/
def numClass (c : Char) : Bool := c = '-' || c.isDigit || c = '.'

/-- `re.search(tag + "([\-0-9\.]+)", content)`: the first occurrence of the
tag followed by at least one class character, returning the matched run. -/
def find_tagged_num (tag : List Char) : List Char → Option (List Char)
  | [] => none
  | c :: rest =>
    if startsWithL tag (c :: rest) then
      let run := ((c :: rest).drop tag.length).takeWhile numClass
      if !run.isEmpty then some run else find_tagged_num tag rest
    else find_tagged_num tag rest

/-- `re.search(r'(\d+)\s*days?', uq)`: first digit run followed by optional
whitespace and `day`. -/
def find_days : List Char → Option Nat
  | [] => none
  | c :: rest =>
    if c.isDigit then
      let digits := c :: rest.takeWhile Char.isDigit
      let after := (rest.dropWhile Char.isDigit).dropWhile Char.isWhitespace
      if startsWithL ['d', 'a', 'y'] after then some (natOfDigits digits)
      else find_days rest
    else find_days rest

/-- Python `{:,}` formatting: commas between groups of three digits, built on
the reversed digit list. -/
def group3 : List Char → List Char
  | a :: b :: c :: d :: rest => a :: b :: c :: ',' :: group3 (d :: rest)
  | l => l

/-- Python `f"{n:,}"` for a natural number. -/
def commaSep (n : Nat) : String := ⟨(group3 (toString n).data.reverse).reverse⟩

/-- The inline budget text of the trip-planning enrichment in `chatbot`. -/
def inline_budget_text (days : Nat) (location_match : String) : String :=
  "💰 **Budget for " ++ toString days ++ "-day " ++ location_match
    ++ " trip:**\n\n**Mid-range Category:**\n🏨 Accommodation: ₹2,500 per day\n🍛 Food: ₹1,200 per day\n🚗 Transport: ₹800 per day\n🎫 Activities: ₹1,000 per day\n\n**Total per day: ₹5,500**\n**"
    ++ toString days ++ "-day trip total: ₹" ++ commaSep (5500 * days) ++ "**"

/-- The enrichment step of `chatbot`'s synthesis branch: for places or
trip-planning queries, call PlacesTool on the extracted location, ImagesTool
for up to five bold place names found in its output, and for trip planning
additionally the safest-waterfall lookup, its images, NewsTool and the inline
budget; all appended to the accumulated tool-result text. -/
def build_combined (env : Env) (user_query uq combined : String) : String :=
  if is_places_query uq || is_trip_planning uq then
    match extract_location_match user_query with
    | some location_match =>
      let places_result := env.get_places location_match "tourism"
      let c := combined ++ "\n\nPlacesTool: " ++ places_result
      let c := ((find_bold places_result).take 5).foldl
        (fun acc place_name =>
          acc ++ "\n\nImagesTool(" ++ place_name ++ "): " ++ env.get_images (pyStrip place_name)) c
      if is_trip_planning uq then
        let safest_waterfall := get_safest_waterfall location_match
        let c := c ++ "\n\nSafestWaterfall: " ++ format_waterfall_safety safest_waterfall
        let c := c ++ "\n\nImagesTool(" ++ safest_waterfall.name ++ "): "
          ++ env.get_images safest_waterfall.name
        let c := c ++ "\n\nNewsTool: " ++ env.get_news location_match
        if strContains uq "budget" then
          let days := (find_days uq.data).getD 3
          c ++ "\n\nBudgetTool: " ++ inline_budget_text days location_match
        else c
      else c
    | none => combined
  else combined

/-- The final synthesis prompt of `chatbot`: enrichment, then the
query-type-specific instruction template. -/
def build_final_prompt (env : Env) (user_query combined0 : String) : String :=
  let uq := pyStrip (lowerStr user_query)
  let combined := build_combined env user_query uq combined0
  if is_places_query uq then
    "User asked: " ++ user_query ++ "\n\nTool results: " ++ combined
      ++ "\n\nCRITICAL: Use the ImagesTool results for EACH individual place. Match each place name with its specific ImagesTool result. Format as:\n\n🏛️ Places to visit in [City]:\n\n📍 **Place Name** - Description\n🔗 [🔗 See Images](actual_url_from_ImagesTool_for_this_specific_place)\n\nUse ONLY the image URLs from ImagesTool results that match each specific place name."
  else if is_weather_query uq then
    "User asked: " ++ user_query ++ "\n\nTool results: " ++ combined
      ++ "\n\nProvide only weather information. Do not add trip planning."
  else if is_images_query uq then
    "User asked: " ++ user_query ++ "\n\nTool results: " ++ combined
      ++ "\n\nShow clickable image links for the requested location."
  else if is_trip_planning uq then
    "User asked: " ++ user_query ++ "\n\nTool results: " ++ combined
      ++ "\n\nThis is TRIP PLANNING. Follow these steps:\n\n1. Start with the SAFEST waterfall first\n2. Use NewsTool results to verify current water flow safety\n3. Present ONE waterfall with safety details and images\n4. Ask for user confirmation (Yes/No/Alternative)\n5. Wait for response before suggesting next activity\n\nFormat: Present one safe waterfall with current safety status, water flow conditions, and ask for confirmation."
  else
    "User asked: " ++ user_query ++ "\n\nTool results: " ++ combined
      ++ "\n\nProvide helpful travel information based on the query."

/-- trip_agent._extract_live_location_hint: latest human message starting with
`[LIVE_LOCATION]` from which both `lat=` and `lon=` runs parse (the
coordinates are kept as their matched strings). -/
def extract_live_location_hint : List Msg → Option (String × String)
  | [] => none
  | Msg.human c :: rest =>
    if startsWithL ("[LIVE_LOCATION]".data) c.data then
      match find_tagged_num ("lat=".data) c.data, find_tagged_num ("lon=".data) c.data with
      | some la, some lo => some (⟨la⟩, ⟨lo⟩)
      | _, _ => extract_live_location_hint rest
    else extract_live_location_hint rest
  | _ :: rest => extract_live_location_hint rest

/-- The non-synthesis path of `chatbot`: optional near-me location info
message, then the tool-bound model call; returns the messages appended to the
state (the in-place `messages.append` plus the returned response). -/
def chatbot_default (env : Env) (messages : List Msg) : List Msg :=
  let near_me :=
    match messages.getLast? with
    | some (Msg.human c) => strContains (lowerStr c) "near me" || strContains (lowerStr c) "nearby"
    | _ => false
  let info : List Msg :=
    if near_me then
      match extract_live_location_hint messages.reverse with
      | some (la, lo) =>
        let resolved := (env.reverse_geocode la lo).getD (la ++ "," ++ lo)
        [Msg.human ("[INFO] Using your current location: " ++ resolved)]
      | none => []
    else []
  let r := env.llm_with_tools (Msg.system get_trip_agent_prompt :: (messages ++ info))
  info ++ [Msg.ai r.1 r.2]

/-- trip_agent.chatbot: when the last message is a tool result the collected
tool results are synthesised with `llm.invoke` (no tools bound, so the reply
carries no tool calls); otherwise the tool-bound model is invoked. -/
def chatbot (env : Env) (messages : List Msg) : List Msg :=
  match messages.getLast? with
  | some (Msg.tool _ _) =>
    let tool_results := collect_tool_results messages.reverse
    if tool_results.isEmpty then chatbot_default env messages
    else
      let user_query := find_user_query messages.reverse
      let combined0 := joinStr "\n\n" tool_results.reverse
      let prompt := build_final_prompt env user_query combined0
      [Msg.ai (env.llm_plain [Msg.system get_trip_agent_prompt, Msg.human prompt]) []]
  | _ => chatbot_default env messages

/-- trip_agent.should_continue: route to the tool node exactly when the last
message has a non-empty `tool_calls` attribute. -/
def should_continue (messages : List Msg) : Bool :=
  match messages.getLast? with
  | some (Msg.ai _ tool_calls) => !tool_calls.isEmpty
  | _ => false

/-- The langgraph ToolNode: one tool message per requested call of the last AI
message, in order. -/
def tool_node (env : Env) (messages : List Msg) : List Msg :=
  match messages.getLast? with
  | some (Msg.ai _ tool_calls) =>
    tool_calls.map (fun tc => Msg.tool tc.name (env.exec_tool tc))
  | _ => []

/-- The compiled graph of `create_trip_agent` on one user turn:
START → chatbot, then conditionally tools → chatbot again, until
`should_continue` routes to END.  Returns the final message list and the
number of tool-dispatch rounds, `none` if the fuel runs out. -/
def run_loop (env : Env) : Nat → List Msg → Option (List Msg × Nat)
  | 0, _ => none
  | fuel + 1, ms =>
    let ms' := ms ++ chatbot env ms
    if should_continue ms' then
      match run_loop env fuel (ms' ++ tool_node env ms') with
      | some (r, n) => some (r, n + 1)
      | none => none
    else some (ms', 0)

/- ------------------------------------------------------------------ -/
/- tools/weather.py: advisory selection on a successful lookup.        -/
/- Temperature, feels-like and wind speed are floats in the source;    -/
/- they only feed order comparisons against the integer thresholds     -/
/- 35, 10 and 10, so they are carried as exact rationals here.         -/
/- ------------------------------------------------------------------ -/

/-- The heat advisory sentence. -/
def heat_advisory : String :=
  "\n🔥 **Travel Tip:** Very hot! Carry water, wear sunscreen, avoid midday travel."

/-- The cold advisory sentence. -/
def cold_advisory : String :=
  "\n🧥 **Travel Tip:** Cold weather! Pack warm clothes and layers."

/-- The humidity advisory sentence. -/
def humidity_advisory : String :=
  "\n💧 **Travel Tip:** High humidity! Light, breathable cotton clothing recommended."

/-- The wind advisory sentence. -/
def wind_advisory : String :=
  "\n💨 **Travel Tip:** Windy conditions! Secure loose items and be cautious outdoors."

/-- get_weather's advisory chain: `temp > 35`, elif `temp < 10`, elif
`humidity > 80`, elif `wind_speed > 10`, else no advisory. -/
def travel_advice (temp : ℚ) (humidity : ℕ) (wind_speed : ℚ) : String :=
  if 35 < temp then heat_advisory
  else if temp < 10 then cold_advisory
  else if 80 < humidity then humidity_advisory
  else if 10 < wind_speed then wind_advisory
  else ""

/-- The successful-lookup result text of get_weather; `render` models Python's
float-to-string formatting of the already-parsed API numbers. -/
def get_weather_result (city country weather_desc : String) (temp feels_like : ℚ)
    (humidity : ℕ) (wind_speed : ℚ) (render : ℚ → String) : String :=
  "🌍 **Live Weather in " ++ city ++ ", " ++ country ++ ":**\n\n"
    ++ "🌡️ **Temperature:** " ++ render temp ++ "°C (Feels like " ++ render feels_like ++ "°C)\n"
    ++ "☁️ **Condition:** " ++ weather_desc ++ "\n"
    ++ "💧 **Humidity:** " ++ toString humidity ++ "%\n"
    ++ "💨 **Wind Speed:** " ++ render wind_speed ++ " m/s"
    ++ travel_advice temp humidity wind_speed
    ++ "\n\n🇮🇳 **For Indian Travelers:** Perfect weather data to plan your trip timing!"

/- ------------------------------------------------------------------ -/
/- tools/booking.py: get_booking's guided prompts and query shape.     -/
/- Dates are modelled as day numbers (datetime.now() + timedelta).     -/
/- ------------------------------------------------------------------ -/

/-- Python falsiness of an optional string argument (`None` or `""`). -/
def isFalsy : Option String → Bool
  | none => true
  | some s => s = ""

/-- The search parameters get_booking sends to the hotels API. -/
structure SearchParams where
  dest_id : String
  arrival_day : Nat
  departure_day : Nat
  adults : Nat
  room_qty : Nat
  price : Option (Nat × Nat)
deriving DecidableEq

/-- What one call of get_booking does before any HTTP response handling. -/
inductive BookingAction
  | askLocation
  | askType (location : String)
  | noCreds
  | query (p : SearchParams)
deriving DecidableEq

/-- The budget→price-range map of get_booking (`"all"` maps to `None`). -/
def budget_map : List (String × Option (Nat × Nat)) :=
  [("budget", some (0, 3000)), ("average", some (3000, 8000)),
   ("rich", some (8000, 20000)), ("luxury", some (20000, 100000)), ("all", none)]

/-- `budget_map.get(budget_type.lower())`, flattened by Python truthiness:
an absent key and `None` both leave no price filter. -/
def budget_choice (budget_type : String) : Option (Nat × Nat) :=
  match budget_map.find? (fun p => p.1 = lowerStr budget_type) with
  | some p => p.2
  | none => none

/-- tools/booking.get_booking, up to the HTTP call: missing location → ask for
the destination; missing accommodation type → ask for the category; missing
credentials → configuration error; otherwise the API query with check-in
`today + 7`, check-out `today + 8`, 2 adults, 1 room, and the price filter
exactly when the budget tier maps to a range. -/
def get_booking_action (location place_type : Option String) (budget_type : String)
    (creds : Bool) (today : Nat) : BookingAction :=
  if isFalsy location then .askLocation
  else if isFalsy place_type then .askType (location.getD "")
  else if !creds then .noCreds
  else
    let p0 : SearchParams :=
      ⟨location.getD "", today + 7, today + 8, 2, 1, none⟩
    match budget_choice budget_type with
    | some range => .query { p0 with price := some range }
    | none => .query p0

/- ------------------------------------------------------------------ -/
/- tools/sos.py: contacts, dispatch and the aggregate summary.          -/
/- ------------------------------------------------------------------ -/

/-- tools/sos.Contact after its dataclass post-init hook has run. -/
structure Contact where
  name : String
  number : String
  relation : String
deriving DecidableEq

/-- Contact._normalize_number: strip everything but digits and `+`, then
canonicalise to `+91…` international form. -/
def normalize_number (number : String) : String :=
  let clean : List Char := number.data.filter (fun c => c.isDigit || c = '+')
  if startsWithL ("+91".data) clean then ⟨clean⟩
  else if startsWithL ("91".data) clean && 10 < clean.length then ⟨'+' :: clean⟩
  else if clean.length = 10 then "+91" ++ ⟨clean⟩
  else if startsWithL ("+".data) clean then ⟨clean⟩
  else "+91" ++ ⟨clean⟩

/-- Constructing a Contact runs the post-init normalization once. -/
def Contact.create (name number relation : String) : Contact :=
  ⟨name, normalize_number number, relation⟩

/-- tools/sos.SendResult. -/
structure SendResult where
  contact : String
  status : String
  method : String
  error_message : Option String
deriving DecidableEq

/-- What dispatching to one contact can do: WhatsAppSender.send returns a
result (it catches its own errors), or the loop body raises and the outer
per-contact handler records a failed result. -/
inductive DispatchOutcome
  | result (r : SendResult)
  | raised (e : String)

/-- Python `result.error_message or 'Failed'` (`None` and `""` are falsy). -/
def orFailed : Option String → String
  | some s => if s = "" then "Failed" else s
  | none => "Failed"

/-- The per-contact dispatch loop of trigger_sos: every contact is attempted,
an exception for one contact only records a failed SendResult for it. -/
def sendAll (send : Contact → DispatchOutcome) (contacts : List Contact) : List SendResult :=
  contacts.map (fun c =>
    match send c with
    | .result r => r
    | .raised e => ⟨c.name, "failed", "whatsapp", some e⟩)

/-- One line of the aggregate summary. -/
def summary_line (r : SendResult) : String :=
  if r.status = "success" then "✅ " ++ r.contact
  else "❌ " ++ r.contact ++ " - " ++ orFailed r.error_message

/-- The no-contacts failure text of trigger_sos. -/
def no_contacts_msg : String :=
  "❌ No emergency contacts found. Please add contacts first using the Setup SOS button."

/-- SOSSystem.trigger_sos: contacts from the database, else the local file
fallback; with none, the fixed no-contacts text and no dispatch; otherwise
dispatch to every contact and the aggregate `k/n sent` summary listing every
contact, failed ones with their reason. -/
def trigger_sos (send : Contact → DispatchOutcome)
    (dbRecords localRecords : List Contact) : String :=
  let contacts_list := if dbRecords.isEmpty then localRecords else dbRecords
  if contacts_list.isEmpty then no_contacts_msg
  else
    let results := sendAll send contacts_list
    let success_count := (results.filter (fun r => r.status = "success")).length
    let total_count := results.length
    let summary_lines := results.map summary_line
    "🚨 SOS Alert Results (" ++ toString success_count ++ "/" ++ toString total_count
      ++ " sent)\n" ++ joinStr "\n" summary_lines

/- ------------------------------------------------------------------ -/
/- app.py: the POST /api/sos status decision and the chat routing.     -/
/- ------------------------------------------------------------------ -/

/-- app.trigger_sos's status decision over the trigger_sos result text. -/
def sos_api_status (result : String) : String :=
  if strContains result "No emergency contacts found" then "error"
  else if strContains (lowerStr result) "sent" || strContains (lowerStr result) "success" then
    "success"
  else "partial"

/-- Where one websocket chat turn is routed before any model work. -/
inductive ChatRoute
  | emptyPrompt
  | setupMsg
  | sosHelp
  | toModel
deriving DecidableEq

/-- The emergency keyword list of app.ws_chat. -/
def emergency_keywords : List String := ["sos", "emergency", "help me", "urgent"]

/-- app.ws_chat's routing of one user message: empty input → the prompt
message; emergency keyword present → the setup reply for add-contact/setup
texts, the fixed alert-channel help for sos/emergency texts, and otherwise a
fall-through to the model; no keyword → the model. -/
def route_chat (user_text : String) : ChatRoute :=
  if pyStrip user_text = "" then .emptyPrompt
  else
    let user_lower := lowerStr user_text
    if emergency_keywords.any (fun w => strContains user_lower w) then
      if strContains user_lower "add contact" || strContains user_lower "setup" then .setupMsg
      else if strContains user_lower "sos" || strContains user_lower "emergency" then .sosHelp
      else .toModel
    else .toModel

/- ------------------------------------------------------------------ -/
/- Helper lemmas (shared; none of them is a claim's theorem).          -/
/- ------------------------------------------------------------------ -/

theorem str_data_append (a b : String) : (a ++ b).data = a.data ++ b.data := rfl

theorem infix_append_right {α} {l m : List α} (x : List α) (h : l <:+: m) : l <:+: m ++ x := by
  obtain ⟨s, t, rfl⟩ := h
  exact ⟨s, t ++ x, by simp⟩

theorem infix_append_left {α} {l m : List α} (x : List α) (h : l <:+: m) : l <:+: x ++ m := by
  obtain ⟨s, t, rfl⟩ := h
  exact ⟨x ++ s, t, by simp⟩

theorem startsWithL_iff (n h : List Char) : startsWithL n h = true ↔ n <+: h := by
  induction n generalizing h with
  | nil => simp [startsWithL]
  | cons a as ih =>
    cases h with
    | nil => simp [startsWithL]
    | cons b bs => simp [startsWithL, ih, List.cons_prefix_cons]

theorem substrL_iff (n h : List Char) : substrL n h = true ↔ n <:+: h := by
  induction h with
  | nil => simp [substrL, List.isEmpty_iff]
  | cons c t ih => simp [substrL, startsWithL_iff, ih, List.infix_cons_iff]

theorem strContains_iff (hay needle : String) :
    strContains hay needle = true ↔ needle.data <:+: hay.data := by
  simp [strContains, substrL_iff]

theorem mem_joinStr_infix (sep x : String) (l : List String) (hx : x ∈ l) :
    x.data <:+: (joinStr sep l).data := by
  induction l with
  | nil => cases hx
  | cons a t ih =>
    rcases List.mem_cons.mp hx with rfl | hx'
    · cases t with
      | nil => exact List.infix_refl _
      | cons b t2 =>
        show x.data <:+: ((x ++ sep) ++ joinStr sep (b :: t2)).data
        rw [str_data_append, str_data_append]
        exact infix_append_right _ (infix_append_right _ (List.infix_refl _))
    · cases t with
      | nil => cases hx'
      | cons b t2 =>
        show x.data <:+: ((a ++ sep) ++ joinStr sep (b :: t2)).data
        rw [str_data_append]
        exact infix_append_left _ (ih hx')

theorem lowerStr_data (s : String) : (lowerStr s).data = s.data.map Char.toLower := rfl

theorem strContains_lower_of_infix {s needle : String}
    (hfix : needle.data.map Char.toLower = needle.data)
    (h : needle.data <:+: s.data) : strContains (lowerStr s) needle = true := by
  rw [strContains_iff, lowerStr_data, ← hfix]
  exact h.map Char.toLower

theorem toLower_of_isWhitespace {c : Char} (h : c.isWhitespace = true) : c.toLower = c := by
  have h' : ((c = ' ' ∨ c = '\t') ∨ c = '\r') ∨ c = '\n' := by
    simpa [Char.isWhitespace] using h
  rcases h' with ((rfl | rfl) | rfl) | rfl <;> decide

theorem trimL_eq_nil_all_ws {l : List Char} (h : trimL l = []) :
    ∀ c ∈ l, c.isWhitespace = true := by
  unfold trimL at h
  rw [List.reverse_eq_nil_iff, List.dropWhile_eq_nil_iff] at h
  intro c hc
  rw [← List.takeWhile_append_dropWhile (p := Char.isWhitespace) (l := l)] at hc
  rcases List.mem_append.mp hc with h1 | h1
  · exact List.mem_takeWhile_imp h1
  · exact h c (List.mem_reverse.mpr h1)

theorem strip_ne_empty_of_contains {s needle : String} (c0 : Char)
    (hc0 : c0 ∈ needle.data) (hws : c0.isWhitespace = false)
    (h : strContains (lowerStr s) needle = true) : pyStrip s ≠ "" := by
  intro hstrip
  have hnil : trimL s.data = [] := congrArg String.data hstrip
  have hall := trimL_eq_nil_all_ws hnil
  have hmem : c0 ∈ (lowerStr s).data := (strContains_iff _ _).mp h |>.subset hc0
  rw [lowerStr_data] at hmem
  obtain ⟨d, hd, hdc⟩ := List.mem_map.mp hmem
  have hwd := hall d hd
  rw [toLower_of_isWhitespace hwd] at hdc
  subst hdc
  rw [hws] at hwd
  cases hwd

theorem getLast?_append_right {α} (l : List α) {m : List α} (h : m ≠ []) :
    (l ++ m).getLast? = m.getLast? := by
  induction m using List.reverseRecOn with
  | nil => cases h rfl
  | append_singleton m' a _ =>
    rw [← List.append_assoc, List.getLast?_concat, List.getLast?_concat]

theorem getLast?_map_cons {α β} (f : α → β) (t : α) (ts : List α) :
    ((t :: ts).map f).getLast? = ((t :: ts).getLast?).map f := by
  induction ts generalizing t with
  | nil => rfl
  | cons u us ih =>
    rw [List.map_cons, List.map_cons, List.getLast?_cons_cons, List.getLast?_cons_cons,
        ← List.map_cons]
    exact ih u

theorem commonLen_self (l : List Char) : commonLen l l = l.length := by
  induction l with
  | nil => rfl
  | cons a as ih => simp [commonLen, ih]

theorem commonLen_le_left (x y : List Char) : commonLen x y ≤ x.length := by
  induction x generalizing y with
  | nil => simp [commonLen]
  | cons a as ih =>
    cases y with
    | nil => simp [commonLen]
    | cons b bs =>
      simp only [commonLen, List.length_cons]
      split
      · exact Nat.succ_le_succ (ih bs)
      · exact Nat.zero_le _

theorem matchLen_le_left (a b : List Char) (i j ahi bhi : Nat) :
    matchLen a b i j ahi bhi ≤ a.length := by
  unfold matchLen
  calc commonLen ((a.drop i).take (ahi - i)) ((b.drop j).take (bhi - j))
      ≤ ((a.drop i).take (ahi - i)).length := commonLen_le_left _ _
    _ ≤ (a.drop i).length := by
        rw [List.length_take]
        exact min_le_right _ _
    _ ≤ a.length := by
        rw [List.length_drop]
        exact Nat.sub_le _ _

theorem bestMatch_inner_keep (a b : List Char) (ahi bhi i : Nat)
    (best : Nat × Nat × Nat) (hb : a.length ≤ best.2.2) (js : List Nat) :
    js.foldl
      (fun best j =>
        if best.2.2 < matchLen a b i j ahi bhi then (i, j, matchLen a b i j ahi bhi) else best)
      best = best := by
  induction js with
  | nil => rfl
  | cons j js ih =>
    have hk : ¬ best.2.2 < matchLen a b i j ahi bhi :=
      Nat.not_lt.mpr ((matchLen_le_left a b i j ahi bhi).trans hb)
    simp only [List.foldl_cons, hk, if_false]
    exact ih

theorem bestMatch_outer_keep (a b : List Char) (ahi bhi : Nat) (js : List Nat)
    (best : Nat × Nat × Nat) (hb : a.length ≤ best.2.2) (is : List Nat) :
    is.foldl
      (fun best i =>
        List.foldl
          (fun best j =>
            if best.2.2 < matchLen a b i j ahi bhi then (i, j, matchLen a b i j ahi bhi) else best)
          (if best.2.2 < matchLen a b i 0 ahi bhi then (i, 0, matchLen a b i 0 ahi bhi) else best)
          js)
      best = best := by
  induction is with
  | nil => rfl
  | cons i is ih =>
    have hk : ¬ best.2.2 < matchLen a b i 0 ahi bhi :=
      Nat.not_lt.mpr ((matchLen_le_left a b i 0 ahi bhi).trans hb)
    simp only [List.foldl_cons, hk, if_false]
    rw [bestMatch_inner_keep a b ahi bhi i best hb js]
    exact ih

theorem bestMatch_self (a : List Char) (h : a ≠ []) :
    bestMatch a a 0 a.length 0 a.length = (0, 0, a.length) := by
  have hn : 0 < a.length := List.length_pos.mpr h
  obtain ⟨m, hm⟩ : ∃ m, a.length = m + 1 := ⟨a.length - 1, by omega⟩
  have hL : List.range' 0 (a.length - 0) = 0 :: List.range' 1 m := by
    rw [Nat.sub_zero, hm, List.range'_succ]
  have hfirst : matchLen a a 0 0 a.length a.length = a.length := by
    unfold matchLen
    rw [Nat.sub_zero, List.drop_zero, List.take_length, commonLen_self]
  unfold bestMatch
  rw [hL]
  simp only [List.foldl_cons]
  rw [hfirst, if_pos hn]
  rw [bestMatch_inner_keep a a a.length a.length 0 (0, 0, a.length) (Nat.le_refl a.length)
      (List.range' 1 m)]
  rw [bestMatch_outer_keep a a a.length a.length (List.range' 1 m) (0, 0, a.length)
      (Nat.le_refl a.length) (List.range' 1 m)]

theorem totalMatchedAux_empty_left (a b : List Char) (fuel alo blo bhi : Nat) :
    totalMatchedAux a b fuel alo alo blo bhi = 0 := by
  cases fuel with
  | zero => rfl
  | succ f =>
    show (if (bestMatch a b alo alo blo bhi).2.2 = 0 then 0 else _) = 0
    have hbm : bestMatch a b alo alo blo bhi = (alo, blo, 0) := by
      unfold bestMatch
      rw [Nat.sub_self]
      rfl
    rw [hbm]
    simp

theorem totalMatched_self (a : List Char) : totalMatched a a = a.length := by
  by_cases h : a = []
  · subst h; rfl
  · unfold totalMatched
    show totalMatchedAux a a (a.length + a.length + 1) 0 a.length 0 a.length = a.length
    obtain ⟨f, hf⟩ : ∃ f, a.length + a.length + 1 = f + 1 := ⟨a.length + a.length, rfl⟩
    rw [hf]
    show (if (bestMatch a a 0 a.length 0 a.length).2.2 = 0 then 0 else _) = a.length
    rw [bestMatch_self a h]
    have hne : a.length ≠ 0 := fun hz => h (List.eq_nil_of_length_eq_zero hz)
    simp only [hne, if_false]
    rw [totalMatchedAux_empty_left, Nat.zero_add, Nat.add_zero,
        totalMatchedAux_empty_left, Nat.add_zero]

theorem fle_simFrac_self (a : List Char) :
    Frac.fle confidence_default (simFrac a a) = true := by
  by_cases h : a = []
  · subst h; decide
  · have hlen : a.length + a.length ≠ 0 := by
      intro hz
      exact h (List.eq_nil_of_length_eq_zero (Nat.eq_zero_of_add_eq_zero_right hz))
    unfold simFrac
    simp only [hlen, if_false]
    rw [totalMatched_self]
    show decide (confidence_default.num * (a.length + a.length)
      ≤ 2 * a.length * confidence_default.den) = true
    rw [decide_eq_true_eq]
    show 8 * (a.length + a.length) ≤ 2 * a.length * 10
    omega

theorem fle_cutoff_of_not_fle_cutoff {s : Frac} (h : cutoffFrac.fle s = false) :
    confidence_default.fle s = false := by
  simp only [Frac.fle, cutoffFrac, confidence_default, decide_eq_false_iff_not, Nat.not_le] at h ⊢
  omega

/- ------------------------------------------------------------------ -/
/- Claim theorems.                                                     -/
/- ------------------------------------------------------------------ -/

/-- C2: for every input location, writing `s` for the similarity of the
lower-cased stripped input to its best gazetteer match (the exact fraction
`2M/T` that difflib's float ratio realises): `s ≥ 0.8` gives the auto-corrected
match with `needs_confirmation = false`; `0.6 ≤ s < 0.8` gives the suggested
match with `needs_confirmation = true`; `s < 0.6`, or no gazetteer match at
all, passes the input through unchanged with `was_corrected = false`. -/
theorem spell_check_threshold_cases (location : String) :
    (∀ m : String, get_close_matches (pyStrip (lowerStr location)).data = some m →
      ((confidence_default.fle (simFrac (pyStrip (lowerStr location)).data m.data) = true →
          smart_spell_check_location location confidence_default = (pyTitle m, true, false))
        ∧ (confidence_default.fle (simFrac (pyStrip (lowerStr location)).data m.data) = false →
            cutoffFrac.fle (simFrac (pyStrip (lowerStr location)).data m.data) = true →
          smart_spell_check_location location confidence_default = (pyTitle m, true, true))
        ∧ (cutoffFrac.fle (simFrac (pyStrip (lowerStr location)).data m.data) = false →
          smart_spell_check_location location confidence_default = (location, false, false))))
    ∧ (get_close_matches (pyStrip (lowerStr location)).data = none →
        smart_spell_check_location location confidence_default = (location, false, false)) := by
  constructor
  · intro m hm
    refine ⟨fun h1 => ?_, fun h1 h2 => ?_, fun h2 => ?_⟩
    · simp only [smart_spell_check_location, hm]
      simp [h1]
    · simp only [smart_spell_check_location, hm]
      simp [h1, h2]
    · have h1 := fle_cutoff_of_not_fle_cutoff h2
      simp only [smart_spell_check_location, hm]
      simp [h1, h2]
  · intro hnone
    simp only [smart_spell_check_location, hnone]

/-- C2 witness: `"delly"` best-matches `"delhi"` with similarity exactly 0.6,
the medium-confidence branch. -/
theorem spell_check_threshold_cases_witness :
    smart_spell_check_location "delly" confidence_default = (pyTitle "delhi", true, true) :=
  ((spell_check_threshold_cases "delly").1 "delhi" (by decide)).2.1 (by decide) (by decide)

/-- C3 counterexample: the canonical gazetteer entry `"goa"` is not returned
unchanged with `was_corrected = false`; it is returned title-cased with
`was_corrected = true`. -/
theorem spell_check_canonical_goa :
    smart_spell_check_location "goa" confidence_default = ("Goa", true, false) := by decide

/-- C3 amended: an already-canonical location name (its lower-cased stripped
form is itself and it is its own best gazetteer match) is auto-corrected to
its title-cased form with `was_corrected = true` and
`needs_confirmation = false` — self-similarity is 1, above the threshold. -/
theorem spell_check_canonical_titlecased (d : String)
    (h1 : pyStrip (lowerStr d) = d)
    (h2 : get_close_matches d.data = some d) :
    smart_spell_check_location d confidence_default = (pyTitle d, true, false) := by
  simp only [smart_spell_check_location, h1, h2]
  simp [fle_simFrac_self]

/-- C3 amended witness at the canonical entry `"kerala"`. -/
theorem spell_check_canonical_titlecased_witness :
    smart_spell_check_location "kerala" confidence_default = (pyTitle "kerala", true, false) :=
  spell_check_canonical_titlecased "kerala" (by decide) (by decide)

theorem normalize_digits10 (d : String) (h1 : d.length = 10)
    (h2 : ∀ c ∈ d.data, c.isDigit = true) : normalize_number d = "+91" ++ d := by
  obtain ⟨c, rest, hcons⟩ : ∃ c rest, d.data = c :: rest := by
    cases hd : d.data with
    | nil =>
      exfalso
      have : d.data.length = 10 := h1
      rw [hd] at this
      cases this
    | cons c rest => exact ⟨c, rest, rfl⟩
  have hc : c.isDigit = true := h2 c (by rw [hcons]; exact List.mem_cons_self _ _)
  have hne : ('+' : Char) ≠ c := by
    intro he
    rw [← he] at hc
    exact absurd hc (by decide)
  have hfilter : d.data.filter (fun c => c.isDigit || c = '+') = d.data :=
    List.filter_eq_self.mpr (fun x hx => by simp [h2 x hx])
  have hsw1 : startsWithL ("+91".data) d.data = false := by
    rw [hcons, show ("+91".data : List Char) = ['+', '9', '1'] from rfl]
    simp [startsWithL, hne]
  have hlen : d.data.length = 10 := h1
  have hstr : (⟨d.data⟩ : String) = d := rfl
  simp only [normalize_number, hfilter, hsw1, Bool.false_eq_true, if_false, hlen, hstr]
  simp

theorem normalize_plus91 (d : String) (h2 : ∀ c ∈ d.data, c.isDigit = true) :
    normalize_number ("+91" ++ d) = "+91" ++ d := by
  have hdata : ("+91" ++ d).data = '+' :: '9' :: '1' :: d.data := by
    rw [str_data_append]
    rfl
  have hfilter : ("+91" ++ d).data.filter (fun c => c.isDigit || c = '+')
      = ("+91" ++ d).data := by
    refine List.filter_eq_self.mpr (fun x hx => ?_)
    rw [hdata] at hx
    rcases List.mem_cons.mp hx with rfl | hx
    · decide
    rcases List.mem_cons.mp hx with rfl | hx
    · decide
    rcases List.mem_cons.mp hx with rfl | hx
    · decide
    simp [h2 x hx]
  have hsw : startsWithL ("+91".data) ("+91" ++ d).data = true := by
    rw [hdata, show ("+91".data : List Char) = ['+', '9', '1'] from rfl]
    simp [startsWithL]
  have hstr : (⟨("+91" ++ d).data⟩ : String) = "+91" ++ d := rfl
  simp only [normalize_number, hfilter, hsw, if_true, hstr]

/-- C5: a Contact built from a 10-digit local number and one built from the
same number in `+91` international form store the identical canonical number;
the normalization runs once at creation and re-normalizing an already
normalized number yields itself. -/
theorem contact_number_normalization (nm rel d : String)
    (h1 : d.length = 10) (h2 : ∀ c ∈ d.data, c.isDigit = true) :
    (Contact.create nm d rel).number = "+91" ++ d
    ∧ Contact.create nm ("+91" ++ d) rel = Contact.create nm d rel
    ∧ normalize_number (normalize_number d) = normalize_number d := by
  have e1 := normalize_digits10 d h1 h2
  have e2 := normalize_plus91 d h2
  refine ⟨e1, ?_, ?_⟩
  · show (⟨nm, normalize_number ("+91" ++ d), rel⟩ : Contact)
        = ⟨nm, normalize_number d, rel⟩
    rw [e1, e2]
  · rw [e1, e2]

/-- C5 witness at the 10-digit number 9876543210. -/
theorem contact_number_normalization_witness :
    (Contact.create "Asha" "9876543210" "family").number = "+91" ++ "9876543210" :=
  (contact_number_normalization "Asha" "family" "9876543210" (by decide) (by decide)).1

/-- C6 counterexample: the input "help me plan a trip" contains the emergency
keyword "help me" yet falls through to the model, instead of the fixed
alert-channel help reply. -/
theorem emergency_keyword_fallthrough :
    route_chat "help me plan a trip" = ChatRoute.toModel
    ∧ strContains (lowerStr "help me plan a trip") "help me" = true := by decide

/-- C6 amended: a chat input containing "sos" or "emergency"
(case-insensitively) and containing neither "add contact" nor "setup" is
answered with the fixed alert-channel help message and never reaches the
model; inputs containing only "help me" or "urgent" are not covered. -/
theorem sos_keyword_fixed_reply (s : String)
    (h1 : strContains (lowerStr s) "sos" = true ∨ strContains (lowerStr s) "emergency" = true)
    (h2 : strContains (lowerStr s) "add contact" = false)
    (h3 : strContains (lowerStr s) "setup" = false) :
    route_chat s = ChatRoute.sosHelp := by
  have hne : pyStrip s ≠ "" := by
    rcases h1 with h1 | h1
    · exact strip_ne_empty_of_contains 's' (by decide) (by decide) h1
    · exact strip_ne_empty_of_contains 'e' (by decide) (by decide) h1
  have hkw : emergency_keywords.any (fun w => strContains (lowerStr s) w) = true := by
    rcases h1 with h1 | h1
    · exact List.any_eq_true.mpr ⟨"sos", by simp [emergency_keywords], h1⟩
    · exact List.any_eq_true.mpr ⟨"emergency", by simp [emergency_keywords], h1⟩
  have hor : (strContains (lowerStr s) "sos" || strContains (lowerStr s) "emergency") = true := by
    rcases h1 with h1 | h1 <;> simp [h1]
  simp [route_chat, hne, hkw, h2, h3, hor]

/-- C6 amended witness at the input "sos". -/
theorem sos_keyword_fixed_reply_witness : route_chat "sos" = ChatRoute.sosHelp :=
  sos_keyword_fixed_reply "sos" (Or.inl (by decide)) (by decide) (by decide)

/-- C7: the advisory appended to a successful weather lookup is at most one
sentence, selected first-match-wins in the fixed order heat (temp > 35), cold
(temp < 10), humidity (> 80), wind (> 10 m/s); with no rule matching, nothing
is appended; and the report text carries exactly that advisory segment. -/
theorem weather_advisory_selection (temp : ℚ) (humidity : ℕ) (wind : ℚ) :
    (travel_advice temp humidity wind = heat_advisory
      ∨ travel_advice temp humidity wind = cold_advisory
      ∨ travel_advice temp humidity wind = humidity_advisory
      ∨ travel_advice temp humidity wind = wind_advisory
      ∨ travel_advice temp humidity wind = "")
    ∧ (35 < temp → travel_advice temp humidity wind = heat_advisory)
    ∧ (¬ 35 < temp → temp < 10 → travel_advice temp humidity wind = cold_advisory)
    ∧ (¬ 35 < temp → ¬ temp < 10 → 80 < humidity →
        travel_advice temp humidity wind = humidity_advisory)
    ∧ (¬ 35 < temp → ¬ temp < 10 → ¬ 80 < humidity → 10 < wind →
        travel_advice temp humidity wind = wind_advisory)
    ∧ (¬ 35 < temp → ¬ temp < 10 → ¬ 80 < humidity → ¬ 10 < wind →
        travel_advice temp humidity wind = "")
    ∧ ∀ (city country desc : String) (feels : ℚ) (render : ℚ → String),
        (travel_advice temp humidity wind).data
          <:+: (get_weather_result city country desc temp feels humidity wind render).data := by
  refine ⟨?_, ?_, ?_, ?_, ?_, ?_, ?_⟩
  · unfold travel_advice
    split_ifs <;> simp
  · intro h
    simp [travel_advice, h]
  · intro h1 h2
    simp [travel_advice, h1, h2]
  · intro h1 h2 h3
    simp [travel_advice, h1, h2, h3]
  · intro h1 h2 h3 h4
    simp [travel_advice, h1, h2, h3, h4]
  · intro h1 h2 h3 h4
    simp [travel_advice, h1, h2, h3, h4]
  · intro city country desc feels render
    unfold get_weather_result
    rw [str_data_append, str_data_append]
    exact infix_append_right _ (infix_append_left _ (List.infix_refl _))

/-- C7 witness: 40 °C selects the heat advisory. -/
theorem weather_advisory_selection_witness :
    travel_advice 40 50 5 = heat_advisory :=
  (weather_advisory_selection 40 50 5).2.1 (by norm_num)

/-- C8: the lodging tool asks for the destination when the location is
missing, asks for the accommodation category when that is missing — in both
cases without building an API query — and otherwise queries with check-in 7
days from today for 1 night, attaching the budget-tier price range exactly
when the tier is not "all". -/
theorem booking_guided_flow (loc pt : Option String) (budget_type : String) (today : Nat)
    (hb : budget_type ∈ ["budget", "average", "rich", "luxury", "all"]) :
    (∀ creds, isFalsy loc = true →
        get_booking_action loc pt budget_type creds today = BookingAction.askLocation)
    ∧ (∀ creds, isFalsy loc = false → isFalsy pt = true →
        get_booking_action loc pt budget_type creds today = BookingAction.askType (loc.getD ""))
    ∧ (isFalsy loc = false → isFalsy pt = false →
        ∃ p : SearchParams,
          get_booking_action loc pt budget_type true today = BookingAction.query p
          ∧ p.arrival_day = today + 7
          ∧ p.departure_day = today + 8
          ∧ p.price = budget_choice budget_type
          ∧ (p.price = none ↔ budget_type = "all")) := by
  have hbc : (budget_choice budget_type = none) ↔ budget_type = "all" := by
    fin_cases hb <;> decide
  refine ⟨?_, ?_, ?_⟩
  · intro creds h
    simp [get_booking_action, h]
  · intro creds h1 h2
    simp [get_booking_action, h1, h2]
  · intro h1 h2
    cases hc : budget_choice budget_type with
    | none =>
      refine ⟨⟨loc.getD "", today + 7, today + 8, 2, 1, none⟩, ?_, rfl, rfl, rfl, ?_⟩
      · simp [get_booking_action, h1, h2, hc]
      · simpa using hbc.mp hc
    | some range =>
      refine ⟨⟨loc.getD "", today + 7, today + 8, 2, 1, some range⟩, ?_, rfl, rfl, rfl, ?_⟩
      · simp [get_booking_action, h1, h2, hc]
      · refine ⟨fun h' => absurd h' (by simp), fun hall => ?_⟩
        have hn := hbc.mpr hall
        rw [hn] at hc
        simp at hc

/-- C8 witness: tier "all" with location and category present queries with the
7-day window and no price filter. -/
theorem booking_guided_flow_witness :
    ∃ p : SearchParams,
      get_booking_action (some "goa") (some "hotel") "all" true 0 = BookingAction.query p
      ∧ p.arrival_day = 0 + 7
      ∧ p.departure_day = 0 + 8
      ∧ p.price = budget_choice "all"
      ∧ (p.price = none ↔ ("all" : String) = "all") :=
  (booking_guided_flow (some "goa") (some "hotel") "all" 0 (by decide)).2.2 (by decide) (by decide)

theorem trigger_sos_nonempty (send : Contact → DispatchOutcome) (db localC : List Contact)
    (h : (if db.isEmpty then localC else db) ≠ []) :
    trigger_sos send db localC =
      "🚨 SOS Alert Results ("
        ++ toString (((sendAll send (if db.isEmpty then localC else db)).filter
              (fun r => r.status = "success")).length)
        ++ "/" ++ toString ((sendAll send (if db.isEmpty then localC else db)).length)
        ++ " sent)\n"
        ++ joinStr "\n" ((sendAll send (if db.isEmpty then localC else db)).map summary_line) := by
  have hne : (if db.isEmpty then localC else db).isEmpty = false := by
    cases hc : (if db.isEmpty then localC else db) with
    | nil => exact absurd hc h
    | cons a t => rfl
  simp only [trigger_sos, hne, Bool.false_eq_true, if_false]

/-- C4: loading n ≥ 1 contacts, trigger_sos dispatches to every one of them
(one result per contact, a failure for one never skipping the rest), and the
summary reports exactly k/n sent and lists every failed contact with its
reason; with zero contacts (database and local fallback both empty) it
returns the fixed no-contacts text and dispatches nothing. -/
theorem sos_alert_aggregation (send : Contact → DispatchOutcome) (db localC : List Contact) :
    ((if db.isEmpty then localC else db) = [] →
      trigger_sos send db localC = no_contacts_msg)
    ∧ ((if db.isEmpty then localC else db) ≠ [] →
      (sendAll send (if db.isEmpty then localC else db)).length
          = (if db.isEmpty then localC else db).length
      ∧ ("(" ++ toString (((sendAll send (if db.isEmpty then localC else db)).filter
            (fun r => r.status = "success")).length)
          ++ "/" ++ toString ((sendAll send (if db.isEmpty then localC else db)).length)
          ++ " sent)").data <:+: (trigger_sos send db localC).data
      ∧ ∀ r ∈ sendAll send (if db.isEmpty then localC else db), r.status ≠ "success" →
          ("❌ " ++ r.contact ++ " - " ++ orFailed r.error_message).data
            <:+: (trigger_sos send db localC).data) := by
  constructor
  · intro h
    have hem : (if db.isEmpty then localC else db).isEmpty = true := by rw [h]; rfl
    simp only [trigger_sos, hem, if_true]
  · intro h
    have heq := trigger_sos_nonempty send db localC h
    refine ⟨by simp [sendAll], ?_, ?_⟩
    · rw [heq]
      refine ⟨"🚨 SOS Alert Results ".data,
        "\n".data ++ (joinStr "\n"
          ((sendAll send (if db.isEmpty then localC else db)).map summary_line)).data, ?_⟩
      simp only [str_data_append, List.append_assoc, List.cons_append, List.singleton_append,
        List.nil_append]
    · intro r hr hfail
      have hline : summary_line r = "❌ " ++ r.contact ++ " - " ++ orFailed r.error_message := by
        simp [summary_line, hfail]
      have hmem : summary_line r
          ∈ (sendAll send (if db.isEmpty then localC else db)).map summary_line :=
        List.mem_map_of_mem _ hr
      have hinfix := mem_joinStr_infix "\n" (summary_line r) _ hmem
      rw [hline] at hinfix
      rw [heq, str_data_append]
      exact infix_append_left _ hinfix

/-- C4 witness: a single contact whose dispatch fails is still reported with
its reason in the summary. -/
def send_fail : Contact → DispatchOutcome :=
  fun c => DispatchOutcome.result ⟨c.name, "failed", "whatsapp", some "boom"⟩

theorem sos_alert_aggregation_witness :
    ("❌ " ++ "Asha" ++ " - " ++ orFailed (some "boom")).data
      <:+: (trigger_sos send_fail [⟨"Asha", "+919876543210", "family"⟩] []).data :=
  ((sos_alert_aggregation send_fail [⟨"Asha", "+919876543210", "family"⟩] []).2
    (by decide)).2.2 ⟨"Asha", "failed", "whatsapp", some "boom"⟩ (by decide) (by decide)

theorem trigger_contains_sent (send : Contact → DispatchOutcome) (db localC : List Contact)
    (h : (if db.isEmpty then localC else db) ≠ []) :
    strContains (lowerStr (trigger_sos send db localC)) "sent" = true := by
  have heq := trigger_sos_nonempty send db localC h
  apply strContains_lower_of_infix (by decide)
  rw [heq, str_data_append, str_data_append]
  apply infix_append_right
  apply infix_append_left
  decide

/-- C10: whenever the /api/sos endpoint sees the aggregate delivery summary
for at least one stored contact (and the summary does not accidentally
contain the no-contacts sentinel), it reports status "success" — even with
zero successful dispatches — because the summary always contains "sent"; and
no trigger_sos result whatsoever can yield status "partial". -/
theorem sos_endpoint_status_success (send : Contact → DispatchOutcome) (db localC : List Contact)
    (h1 : (if db.isEmpty then localC else db) ≠ [])
    (h2 : strContains (trigger_sos send db localC) "No emergency contacts found" = false) :
    sos_api_status (trigger_sos send db localC) = "success"
    ∧ ∀ (send2 : Contact → DispatchOutcome) (db2 localC2 : List Contact),
        sos_api_status (trigger_sos send2 db2 localC2) ≠ "partial" := by
  constructor
  · simp [sos_api_status, h2, trigger_contains_sent send db localC h1]
  · intro send2 db2 localC2
    by_cases hc : (if db2.isEmpty then localC2 else db2) = []
    · have hmsg : trigger_sos send2 db2 localC2 = no_contacts_msg := by
        have hem : (if db2.isEmpty then localC2 else db2).isEmpty = true := by rw [hc]; rfl
        simp only [trigger_sos, hem, if_true]
      rw [hmsg]
      decide
    · by_cases hs : strContains (trigger_sos send2 db2 localC2) "No emergency contacts found" = true
      · have : sos_api_status (trigger_sos send2 db2 localC2) = "error" := by
          simp [sos_api_status, hs]
        rw [this]
        decide
      · have hs' : strContains (trigger_sos send2 db2 localC2) "No emergency contacts found"
            = false := by
          revert hs
          cases strContains (trigger_sos send2 db2 localC2) "No emergency contacts found" <;> simp
        have : sos_api_status (trigger_sos send2 db2 localC2) = "success" := by
          simp [sos_api_status, hs', trigger_contains_sent send2 db2 localC2 hc]
        rw [this]
        decide

/-- C10 witness: one stored contact, successful dispatch, endpoint status
"success". -/
def send_ok : Contact → DispatchOutcome :=
  fun c => DispatchOutcome.result ⟨c.name, "success", "simulated", none⟩

theorem sos_endpoint_status_success_witness :
    sos_api_status (trigger_sos send_ok [Contact.create "Asha" "9876543210" "family"] [])
      = "success" :=
  (sos_endpoint_status_success send_ok [Contact.create "Asha" "9876543210" "family"] []
    (by decide) (by decide)).1

theorem chatbot_tool_last (env : Env) (ms : List Msg) (nm ct : String) (tl : List Msg)
    (hrev : ms.reverse = Msg.tool nm ct :: tl) :
    ∃ c2, chatbot env ms = [Msg.ai c2 []] := by
  have hlast : ms.getLast? = some (Msg.tool nm ct) := by
    rw [← List.head?_reverse, hrev]
    rfl
  unfold chatbot
  rw [hlast, hrev]
  simp only [collect_tool_results, List.isEmpty_cons, Bool.false_eq_true, if_false]
  exact ⟨_, rfl⟩

theorem run_loop_succ (env : Env) (f : Nat) (m : List Msg) :
    run_loop env (f + 1) m =
      if should_continue (m ++ chatbot env m) then
        match run_loop env f ((m ++ chatbot env m) ++ tool_node env (m ++ chatbot env m)) with
        | some (r, n) => some (r, n + 1)
        | none => none
      else some (m ++ chatbot env m, 0) := rfl

/-- C1: one graph invocation on a history ending with the user's message runs
at most one tool-dispatch round: either the first model reply carries no tool
calls and the loop ends at once, or one ToolNode round runs, the synthesis
call (no tools bound) replies without tool calls, and the loop ends. -/
theorem tool_depth_bound (env : Env) (ms : List Msg)
    (h : ∃ c, ms.getLast? = some (Msg.human c)) (fuel : Nat) (hf : 2 ≤ fuel) :
    ∃ r n, run_loop env fuel ms = some (r, n) ∧ n ≤ 1 := by
  obtain ⟨c, hlast⟩ := h
  obtain ⟨k, rfl⟩ : ∃ k, fuel = k + 1 + 1 := ⟨fuel - 2, by omega⟩
  have hcb : chatbot env ms = chatbot_default env ms := by
    unfold chatbot
    rw [hlast]
  obtain ⟨info, content, tcs, hshape⟩ :
      ∃ info content tcs, chatbot_default env ms = info ++ [Msg.ai content tcs] := by
    unfold chatbot_default
    exact ⟨_, _, _, rfl⟩
  have hms' : (ms ++ chatbot env ms).getLast? = some (Msg.ai content tcs) := by
    rw [hcb, hshape, ← List.append_assoc]
    exact List.getLast?_concat _
  cases tcs with
  | nil =>
    have hsc : should_continue (ms ++ chatbot env ms) = false := by
      unfold should_continue
      rw [hms']
      rfl
    refine ⟨ms ++ chatbot env ms, 0, ?_, by omega⟩
    rw [run_loop_succ, hsc]
    simp
  | cons t ts =>
    have hsc : should_continue (ms ++ chatbot env ms) = true := by
      unfold should_continue
      rw [hms']
      rfl
    have htn : tool_node env (ms ++ chatbot env ms)
        = (t :: ts).map (fun tc => Msg.tool tc.name (env.exec_tool tc)) := by
      unfold tool_node
      rw [hms']
    obtain ⟨nm, ct, hlast2⟩ :
        ∃ nm ct, ((ms ++ chatbot env ms) ++ tool_node env (ms ++ chatbot env ms)).getLast?
          = some (Msg.tool nm ct) := by
      rw [htn, getLast?_append_right _ (by simp), getLast?_map_cons]
      obtain ⟨x, hx⟩ : ∃ x, (t :: ts).getLast? = some x := by
        cases hgl : (t :: ts).getLast? with
        | none =>
          rw [List.getLast?_eq_none_iff] at hgl
          cases hgl
        | some x => exact ⟨x, rfl⟩
      rw [hx]
      exact ⟨x.name, env.exec_tool x, rfl⟩
    obtain ⟨tl, hrev2⟩ :
        ∃ tl, ((ms ++ chatbot env ms) ++ tool_node env (ms ++ chatbot env ms)).reverse
          = Msg.tool nm ct :: tl := by
      have hrev : ((ms ++ chatbot env ms) ++ tool_node env (ms ++ chatbot env ms)).reverse.head?
          = some (Msg.tool nm ct) := by
        rw [List.head?_reverse]
        exact hlast2
      cases hr : ((ms ++ chatbot env ms) ++ tool_node env (ms ++ chatbot env ms)).reverse with
      | nil => rw [hr] at hrev; cases hrev
      | cons a tl =>
        rw [hr] at hrev
        injection hrev with hrev
        rw [hrev]
        exact ⟨tl, rfl⟩
    obtain ⟨c2, hcb2⟩ :
        ∃ c2, chatbot env ((ms ++ chatbot env ms) ++ tool_node env (ms ++ chatbot env ms))
          = [Msg.ai c2 []] :=
      chatbot_tool_last env _ nm ct tl hrev2
    have hms3 : (((ms ++ chatbot env ms) ++ tool_node env (ms ++ chatbot env ms))
        ++ chatbot env ((ms ++ chatbot env ms) ++ tool_node env (ms ++ chatbot env ms))).getLast?
        = some (Msg.ai c2 []) := by
      rw [hcb2]
      exact List.getLast?_concat _
    have hsc2 : should_continue (((ms ++ chatbot env ms)
        ++ tool_node env (ms ++ chatbot env ms))
        ++ chatbot env ((ms ++ chatbot env ms) ++ tool_node env (ms ++ chatbot env ms)))
        = false := by
      unfold should_continue
      rw [hms3]
      rfl
    refine ⟨ms ++ chatbot env ms ++ tool_node env (ms ++ chatbot env ms)
      ++ chatbot env (ms ++ chatbot env ms ++ tool_node env (ms ++ chatbot env ms)), 1,
      ?_, by omega⟩
    rw [run_loop_succ, hsc, if_pos rfl, run_loop_succ, hsc2]
    simp

/-- C1 witness: a trivial oracle environment and the single-message history. -/
def env0 : Env :=
  { llm_with_tools := fun _ => ("ok", [])
    llm_plain := fun _ => "ok"
    exec_tool := fun _ => ""
    get_places := fun _ _ => ""
    get_images := fun _ => ""
    get_news := fun _ => ""
    reverse_geocode := fun _ _ => none }

theorem tool_depth_bound_witness :
    ∃ r n, run_loop env0 2 [Msg.human "hi"] = some (r, n) ∧ n ≤ 1 :=
  tool_depth_bound env0 [Msg.human "hi"] ⟨"hi", rfl⟩ 2 (by omega)

theorem infix_str_append_right (w m x : String) (h : w.data <:+: m.data) :
    w.data <:+: (m ++ x).data := by
  rw [str_data_append]
  exact infix_append_right _ h

theorem infix_str_append_left (w m x : String) (h : w.data <:+: m.data) :
    w.data <:+: (x ++ m).data := by
  rw [str_data_append]
  exact infix_append_left _ h

theorem infix_str_suffix (w m : String) : w.data <:+: (m ++ w).data := by
  rw [str_data_append]
  exact infix_append_left _ (List.infix_refl _)

/-- The trip-planning scenario input of C9. -/
def kerala_query : String := "plan 2 day trip to kerala"

/-- The fixed Kerala gazetteer entry. -/
def athirappilly : Waterfall :=
  ⟨"Athirappilly Falls", "SAFE", ["Well-maintained viewing areas", "Tourist management"],
   "8:00 AM - 10:00 AM", "Safe for viewing", "Shallow areas only"⟩

/-- C9: "plan 2 day trip to kerala" is classified as trip planning, the
location extraction yields "kerala", the safest-landmark lookup returns the
fixed Athirappilly Falls entry with safety level SAFE, and — whatever the
oracle tool outputs and the accumulated tool-result text are — the synthesis
prompt contains that landmark's formatted safety block. -/
theorem kerala_trip_enrichment :
    is_trip_planning (pyStrip (lowerStr kerala_query)) = true
    ∧ extract_location_match kerala_query = some "kerala"
    ∧ get_safest_waterfall "kerala" = athirappilly
    ∧ athirappilly.name = "Athirappilly Falls"
    ∧ athirappilly.safety_level = "SAFE"
    ∧ ∀ (env : Env) (combined0 : String),
        (format_waterfall_safety athirappilly).data
          <:+: (build_final_prompt env kerala_query combined0).data := by
  refine ⟨by decide, by decide, by decide, rfl, rfl, ?_⟩
  intro env combined0
  have huq : pyStrip (lowerStr kerala_query) = "plan 2 day trip to kerala" := by decide
  have f1 : is_places_query "plan 2 day trip to kerala" = false := by decide
  have f2 : is_weather_query "plan 2 day trip to kerala" = false := by decide
  have f3 : is_images_query "plan 2 day trip to kerala" = false := by decide
  have f4 : is_trip_planning "plan 2 day trip to kerala" = true := by decide
  have f5 : extract_location_match kerala_query = some "kerala" := by decide
  have f6 : strContains "plan 2 day trip to kerala" "budget" = false := by decide
  have f7 : get_safest_waterfall "kerala" = athirappilly := by decide
  simp only [build_final_prompt, build_combined, huq, f1, f2, f3, f4, f5, f6, f7,
    Bool.false_or, Bool.false_eq_true, if_false, if_true]
  apply infix_str_append_right
  apply infix_str_append_left
  apply infix_str_append_right
  apply infix_str_append_right
  apply infix_str_append_right
  apply infix_str_append_right
  apply infix_str_append_right
  apply infix_str_append_right
  exact infix_str_suffix _ _
